import Mathlib

/-!
Verification of the TTLockUnlocker scheduling and retry/escalation logic.

The definitions below are shallow embeddings of the Python source:

* `day_mapping`, `breakCheck`, `jobDecision` embed the schedule-matching
  part of `job` in `auto_unlocker.py` (lines 251-375);
* `jobRetry` embeds the staged retry/escalation section of `job`
  (lines 317-372), with the remote unlock result, the Telegram transport
  and the SMTP transport as parameters;
* `unlock_lock` embeds `ttlock_api.unlock_lock` (lines 56-123);
* `save_config`/`load_config` embed the functions of the same names in
  `auto_unlocker.py` (lines 121-172) over a small JSON value type.
-/

/-- Python lexicographic string-less-than over code points
(the comparison used by the source on HH:MM strings). -/
def pyStrLtChars : List Char → List Char → Bool
  | [], [] => false
  | [], _ :: _ => true
  | _ :: _, [] => false
  | a :: as, b :: bs => if a < b then true else if b < a then false else pyStrLtChars as bs

/-- Python string less-or-equal, as used in the break test of `job`. -/
def pyStrLe (a b : String) : Bool := a == b || pyStrLtChars a.data b.data

/-- The day-label dictionary of `job` (auto_unlocker.py lines 266-274):
from the lowercased natural-language weekday name to the Russian label
used by `open_times`/`breaks`; `Option.none` models a failed dict lookup. -/
def day_mapping (s : String) : Option String :=
  if s = "monday" then some "Пн"
  else if s = "tuesday" then some "Вт"
  else if s = "wednesday" then some "Ср"
  else if s = "thursday" then some "Чт"
  else if s = "friday" then some "Пт"
  else if s = "saturday" then some "Сб"
  else if s = "sunday" then some "Вс"
  else none

/-- The configuration fields consulted by the scheduling decision of `job`:
`schedule_enabled`, `open_times` and `breaks`, with the two tables kept as
association lists exactly as the JSON dicts keep them. -/
structure Config where
  schedule_enabled : Bool
  open_times : List (String × Option String)
  breaks : List (String × List String)

/-- Result of one run of the scheduling decision inside `job`: the action
fires, the run returns without firing, or the Python code raises. -/
inductive Outcome where
  | fires
  | skips
  | raises (msg : String)
deriving DecidableEq, Repr

/-- Helper for `pySplitDash`: walks the characters accumulating the
current piece. -/
def splitDashAux : List Char → List Char → List String
  | [], acc => [String.mk acc.reverse]
  | c :: cs, acc =>
    if c = '-' then String.mk acc.reverse :: splitDashAux cs []
    else splitDashAux cs (c :: acc)

/-- Python `s.split("-")`: the pieces of `s` between dashes, in order
(an empty string yields one empty piece, as in Python). -/
def pySplitDash (s : String) : List String := splitDashAux s.data []

/-- The break loop of `job` (auto_unlocker.py lines 296-300):
`start, end = break_time.split("-")` followed by
`if start <= current_time <= end`.  An entry that does not split on
the dash into exactly two parts makes the unpacking raise ValueError. -/
def breakCheck (currentTime : String) : List String → Except String Bool
  | [] => .ok false
  | b :: rest =>
    match pySplitDash b with
    | [s, e] =>
      if pyStrLe s currentTime && pyStrLe currentTime e then .ok true
      else breakCheck currentTime rest
    | _ => .error "ValueError: not enough values to unpack"

/-- The schedule-matching decision of `job` (auto_unlocker.py lines 262-303):
derive the day label from the locale-rendered weekday name, return early
when the schedule is disabled or no open time is set (Python falsy test, so
an empty string also means day off), apply the `TIME_SHIFT` override when
set and non-empty, skip during a break, and fire exactly when the current
`HH:MM` string equals the open time. -/
def jobDecision (cfg : Config) (weekdayName currentTime : String)
    (timeShift : Option String) : Outcome :=
  let current_day := day_mapping weekdayName
  if !cfg.schedule_enabled then .skips
  else
    let open_time : Option String :=
      match current_day with
      | none => none
      | some d => (List.lookup d cfg.open_times).join
    match open_time with
    | none => .skips
    | some ot =>
      if ot = "" then .skips
      else
        let ot := match timeShift with
          | some s => if s = "" then ot else s
          | none => ot
        let breaks : List String :=
          match current_day with
          | none => []
          | some d => (List.lookup d cfg.breaks).getD []
        match breakCheck currentTime breaks with
        | .error e => .raises e
        | .ok true => .skips
        | .ok false => if currentTime = ot then .fires else .skips

/-- A weekday-only 09:00 config with a Monday lunch break, used in examples. -/
def cfgLunch : Config :=
  { schedule_enabled := true
  , open_times := [("Пн", some "14:00"), ("Вт", some "09:00")]
  , breaks := [("Пн", ["13:00-14:00"])] }

/-- The dict returned by `ttlock_api.unlock_lock` as consumed by `job`:
an error code (`0` means success) and a human-readable error message. -/
structure ApiResult where
  errcode : Int
  errmsg : String
deriving DecidableEq, Repr

/-- What the network does for one notification-sink call: an HTTP status
comes back, or the request raises. -/
inductive Transport where
  | resp (status : Nat)
  | exn (msg : String)
deriving DecidableEq, Repr

/-- The Telegram notifications issued inside the retry section of `job`,
identified by milestone: per-attempt success, per-attempt failure (with the
error text), the after-3-fast-attempts notice, the critical notice after
5 failures, and the final exhaustion notice (with the last error text). -/
inductive Notice where
  | succNote (k : Nat)
  | failNote (k : Nat) (err : String)
  | threeFast
  | fiveCritical
  | exhausted (err : String)
deriving DecidableEq, Repr

/-- One observable step of the retry section of `job`: an actuator call
(attempt number), a sleep (seconds), a Telegram send (notice plus what the
transport did with it), or an email send through `send_email_notification`
(body error text plus transport outcome). -/
inductive Event where
  | call (k : Nat)
  | wait (secs : Nat)
  | telegram (n : Notice) (t : Transport)
  | email (err : String) (t : Transport)
deriving DecidableEq, Repr

/-- Everything one run of the retry section of `job` does: the ordered
event trace, whether the unlock succeeded, and how many attempts ran. -/
structure JobRun where
  events : List Event
  success : Bool
  attempts : Nat
deriving DecidableEq, Repr

/-- Events of a successful `try_unlock(k)`: the actuator call followed by
the success Telegram message. -/
def succEvents (tg : Notice → Transport) (k : Nat) : List Event :=
  [.call k, .telegram (.succNote k) (tg (.succNote k))]

/-- Events of a failed `try_unlock(k)`: the actuator call followed by the
per-attempt failure Telegram message carrying the error text. -/
def failEvents (tg : Notice → Transport) (k : Nat) (e : String) : List Event :=
  [.call k, .telegram (.failNote k e) (tg (.failNote k e))]

/-- Tail state produced by the final 15-minute loop: its events, whether it
succeeded, the attempts made so far, and the `last_error` variable. -/
structure RunTail where
  events : List Event
  success : Bool
  attempts : Nat
  lastError : String
deriving DecidableEq, Repr

/-- The final loop of `job` (auto_unlocker.py lines 363-367):
`for i in range(5)`, each iteration sleeping 15 minutes and then trying
attempt `i + 6`; `i` counts the remaining iterations here and `k` the
attempt number of the next try. -/
def retry15 (result : Nat → ApiResult) (tg : Notice → Transport) :
    Nat → Nat → String → RunTail
  | 0, k, e => ⟨[], false, k - 1, e⟩
  | i + 1, k, e =>
    let r := result k
    if r.errcode = 0 then
      ⟨Event.wait 900 :: succEvents tg k, true, k, e⟩
    else
      let rest := retry15 result tg i (k + 1) r.errmsg
      ⟨Event.wait 900 :: failEvents tg k r.errmsg ++ rest.events,
        rest.success, rest.attempts, rest.lastError⟩

/-- The retry/escalation section of `job` (auto_unlocker.py lines 317-372):
attempt 1 at once, sleeps of 30 s and 60 s before attempts 2 and 3, a
Telegram notice after 3 fast failures, sleeps of 5 and 10 minutes before
attempts 4 and 5, after the 5th failure a critical Telegram notice plus one
escalation email carrying `last_error`, then five more attempts each after
a 15-minute sleep, and on exhaustion one final Telegram notice carrying
`last_error`.  `result k` is what `ttlock_api.unlock_lock` returns on
attempt `k`; `tg` and `emailT` are the transports the sinks hit. -/
def jobRetry (result : Nat → ApiResult) (tg : Notice → Transport)
    (emailT : Transport) : JobRun :=
  let r1 := result 1
  if r1.errcode = 0 then ⟨succEvents tg 1, true, 1⟩ else
  let pre1 := failEvents tg 1 r1.errmsg ++ [Event.wait 30]
  let r2 := result 2
  if r2.errcode = 0 then ⟨pre1 ++ succEvents tg 2, true, 2⟩ else
  let pre2 := pre1 ++ failEvents tg 2 r2.errmsg ++ [Event.wait 60]
  let r3 := result 3
  if r3.errcode = 0 then ⟨pre2 ++ succEvents tg 3, true, 3⟩ else
  let pre3 := pre2 ++ failEvents tg 3 r3.errmsg
      ++ [Event.telegram .threeFast (tg .threeFast), Event.wait 300]
  let r4 := result 4
  if r4.errcode = 0 then ⟨pre3 ++ succEvents tg 4, true, 4⟩ else
  let pre4 := pre3 ++ failEvents tg 4 r4.errmsg ++ [Event.wait 600]
  let r5 := result 5
  if r5.errcode = 0 then ⟨pre4 ++ succEvents tg 5, true, 5⟩ else
  let e5 := r5.errmsg
  let pre5 := pre4 ++ failEvents tg 5 e5
      ++ [Event.telegram .fiveCritical (tg .fiveCritical), Event.email e5 emailT]
  let tail := retry15 result tg 5 6 e5
  if tail.success then ⟨pre5 ++ tail.events, true, tail.attempts⟩
  else
    ⟨pre5 ++ tail.events
        ++ [Event.telegram (.exhausted tail.lastError)
              (tg (.exhausted tail.lastError))],
      false, tail.attempts⟩

/-- The sleep durations of a trace, in order. -/
def waitsOf (es : List Event) : List Nat :=
  es.filterMap fun e => match e with | .wait s => some s | _ => none

/-- The attempt numbers of the actuator calls of a trace, in order. -/
def callsOf (es : List Event) : List Nat :=
  es.filterMap fun e => match e with | .call k => some k | _ => none

/-- Is this event a per-attempt failure Telegram notification? -/
def isFailNote : Event → Bool
  | .telegram (.failNote _ _) _ => true
  | _ => false

/-- Is this event an email (escalation channel) notification? -/
def isEmailEv : Event → Bool
  | .email _ _ => true
  | _ => false

/-- Is this event the final exhaustion Telegram notification? -/
def isExhaustedNote : Event → Bool
  | .telegram (.exhausted _) _ => true
  | _ => false

/-- An always-failing unlock result, for concrete runs. -/
def failResult : Nat → ApiResult := fun _ => ⟨1, "E"⟩

/-- A transport that always delivers, for concrete runs. -/
def okTG : Notice → Transport := fun _ => .resp 200

/-- A retry event with the transport outcome of its notification erased:
what the retry state machine itself did. -/
inductive CoreEvent where
  | call (k : Nat)
  | wait (secs : Nat)
  | telegram (n : Notice)
  | email (err : String)
deriving DecidableEq, Repr

/-- Erase the transport outcome of an event. -/
def stripEvent : Event → CoreEvent
  | .call k => .call k
  | .wait s => .wait s
  | .telegram n _ => .telegram n
  | .email e _ => .email e

/-- The retry-machine view of a run: its steps without delivery outcomes,
its success flag and its attempt count. -/
def stripRun (r : JobRun) : List CoreEvent × Bool × Nat :=
  (r.events.map stripEvent, r.success, r.attempts)

/-- `auto_unlocker.send_telegram_message` (lines 174-196): posts the text;
a non-200 status or a raised transport exception only produces a warning
log line, and the function always returns normally (a total function here,
since the `try` block swallows every exception). -/
def send_telegram_message (t : Transport) : List String :=
  match t with
  | .resp s => if s != 200 then ["warning: Ошибка отправки Telegram"] else []
  | .exn e => ["warning: Ошибка отправки Telegram: " ++ e]

/-- `telegram_utils.send_email_notification` (lines 133-168): `false` when
the SMTP parameters are not configured, `true` when the SMTP session
completes, `false` after an error log when it raises; total, never
propagating the transport exception. -/
def send_email_notification (configured : Bool) (t : Transport) : Bool :=
  if !configured then false
  else
    match t with
    | .resp _ => true
    | .exn _ => false

/-- What one HTTP request inside `ttlock_api.unlock_lock` does: a parsed
JSON response with an optional `errcode` field and an `errmsg`, or a raised
transport/parse exception. -/
inductive HttpOutcome where
  | resp (errcode : Option Int) (errmsg : String)
  | exn (msg : String)
deriving DecidableEq, Repr

/-- The success test of `ttlock_api.unlock_lock` line 97:
`"errcode" in response_data and response_data["errcode"] == 0`
(an exception never reaches the test). -/
def isOkOutcome : HttpOutcome → Bool
  | .resp (some 0) _ => true
  | _ => false

/-- The dict `ttlock_api.unlock_lock` returns. -/
structure UnlockResult where
  errcode : Int
  errmsg : String
  success : Bool
  attempt : Nat
deriving DecidableEq, Repr

/-- `intervals = [0, 30, 60]` of `ttlock_api.unlock_lock` line 77. -/
def unlockIntervals : List Nat := [0, 30, 60]

/-- One run of `ttlock_api.unlock_lock`: the sleeps it performed, how many
HTTP attempts it made, and the dict it returned. -/
structure UnlockRun where
  waits : List Nat
  calls : Nat
  result : UnlockResult
deriving DecidableEq, Repr

/-- The `for attempt in range(3)` loop of `ttlock_api.unlock_lock`
(lines 79-121): before every attempt but the first, sleep
`intervals[attempt]`; a response with `errcode == 0` returns the success
dict at once; any other response, and any exception, falls through to the
next attempt.  `fuel` counts the remaining iterations, `attempt` is the
0-based loop index. -/
def unlockLoop (outcome : Nat → HttpOutcome) :
    Nat → Nat → List Nat × Nat × Option UnlockResult
  | 0, _ => ([], 0, none)
  | fuel + 1, attempt =>
    let ws := if attempt > 0 then [unlockIntervals.getD attempt 0] else []
    if isOkOutcome (outcome attempt) then
      (ws, 1, some ⟨0, "OK", true, attempt + 1⟩)
    else
      let rest := unlockLoop outcome fuel (attempt + 1)
      (ws ++ rest.1, rest.2.1 + 1, rest.2.2)

/-- `ttlock_api.unlock_lock` (lines 56-123): up to 3 attempts; when none
carries `errcode == 0` the function returns the errcode `-1` failure dict
with `attempt = 3`.  It never raises: every per-attempt exception is caught
inside the loop. -/
def unlock_lock (outcome : Nat → HttpOutcome) : UnlockRun :=
  let r := unlockLoop outcome 3 0
  ⟨r.1, r.2.1,
    r.2.2.getD ⟨-1, "Не удалось открыть замок после 3 попыток", false, 3⟩⟩

/-- The JSON values a config file holds. -/
inductive Json where
  | null
  | str (s : String)
  | bool (b : Bool)
  | num (n : Int)
  | arr (xs : List Json)
  | obj (fields : List (String × Json))

/-- Python dict assignment on an association list: replace the value in
place when the key exists, append otherwise. -/
def dictSet : List (String × Json) → String → Json → List (String × Json)
  | [], k, v => [(k, v)]
  | (k', v') :: rest, k, v =>
    if k' = k then (k', v) :: rest else (k', v') :: dictSet rest k v

/-- Is this JSON value Python `None`? -/
def isNull : Json → Bool
  | .null => true
  | _ => false

/-- The `default` dict of `auto_unlocker.load_config` (lines 125-147). -/
def defaultConfigItems : List (String × Json) :=
  [("timezone", .str "Asia/Krasnoyarsk"),
   ("schedule_enabled", .bool true),
   ("max_retry_time", .str "21:00"),
   ("open_times", .obj
     [("Пн", .str "09:00"), ("Вт", .str "09:00"), ("Ср", .str "09:00"),
      ("Чт", .str "09:00"), ("Пт", .str "09:00"), ("Сб", .null),
      ("Вс", .null)]),
   ("breaks", .obj
     [("Пн", .arr []), ("Вт", .arr []), ("Ср", .arr []), ("Чт", .arr []),
      ("Пт", .arr []), ("Сб", .arr []), ("Вс", .arr [])])]

/-- The merge loop of `auto_unlocker.load_config` (lines 154-156):
`for key, value in config.items(): if value is not None: default[key] = value`. -/
def mergeConfig (fileItems : List (String × Json)) : List (String × Json) :=
  fileItems.foldl
    (fun acc kv => if isNull kv.2 then acc else dictSet acc kv.1 kv.2)
    defaultConfigItems

/-- `auto_unlocker.load_config` (lines 121-160): the parsed file object
merged over the defaults; any read/parse failure yields the defaults. -/
def load_config (file : Option (List (String × Json))) :
    List (String × Json) :=
  match file with
  | none => defaultConfigItems
  | some items => mergeConfig items

/-- A schedule configuration as the weekly table the program persists:
the five top-level keys `load_config` produces, with `open_times` day
values optional and `breaks` day values ordered interval lists. -/
structure ScheduleConfig where
  timezone : String
  schedule_enabled : Bool
  max_retry_time : String
  open_times : List (String × Option String)
  breaks : List (String × List String)

/-- The JSON object of the `open_times` table. -/
def encodeOpenTimes (xs : List (String × Option String)) : Json :=
  .obj (xs.map fun p =>
    (p.1, match p.2 with | none => Json.null | some t => Json.str t))

/-- The JSON object of the `breaks` table. -/
def encodeBreaks (xs : List (String × List String)) : Json :=
  .obj (xs.map fun p => (p.1, Json.arr (p.2.map Json.str)))

/-- The dict items of a `ScheduleConfig`, in the key order `load_config`
produces them. -/
def configItems (c : ScheduleConfig) : List (String × Json) :=
  [("timezone", .str c.timezone),
   ("schedule_enabled", .bool c.schedule_enabled),
   ("max_retry_time", .str c.max_retry_time),
   ("open_times", encodeOpenTimes c.open_times),
   ("breaks", encodeBreaks c.breaks)]

/-- `auto_unlocker.save_config` (lines 162-172): `json.dump` writes the
dict items of the config verbatim, so the stored object is exactly those
items. -/
def save_config (c : ScheduleConfig) : List (String × Json) := configItems c

/-- The unlock-relevant events of one whole run of `job`: when the
scheduling decision does not fire, `job` returns before the retry section,
so no actuator call happens; when it fires but the token cannot be obtained
or `LOCK_ID` is unset, `job` sends one error notification (not modelled
here) and returns, again without any actuator call; only otherwise does the
retry section run. -/
def jobEvents (cfg : Config) (wd t : String) (shift : Option String)
    (tokenOk lockSet : Bool) (result : Nat → ApiResult)
    (tg : Notice → Transport) (emailT : Transport) : List Event :=
  match jobDecision cfg wd t shift with
  | .fires =>
    if !tokenOk then []
    else if !lockSet then []
    else (jobRetry result tg emailT).events
  | _ => []

/-- A weekday config with Monday open at 09:00 and no breaks. -/
def cfg09 : Config :=
  { schedule_enabled := true
  , open_times := [("Пн", some "09:00")]
  , breaks := [] }

/-- A config whose Monday break entry has no dash, so the tuple unpacking
in the break loop of `job` raises ValueError. -/
def cfgBadBreak : Config :=
  { schedule_enabled := true
  , open_times := [("Пн", some "09:00")]
  , breaks := [("Пн", ["1300"])] }

/-- The lowercased weekday names `now.strftime("%A").lower()` yields under
an English-language runtime locale (index 0 = Monday), modelling the
CPython locale rendering the program runs under by default. -/
def weekdayNameLowerEn : Fin 7 → String
  | ⟨0, _⟩ => "monday"
  | ⟨1, _⟩ => "tuesday"
  | ⟨2, _⟩ => "wednesday"
  | ⟨3, _⟩ => "thursday"
  | ⟨4, _⟩ => "friday"
  | ⟨5, _⟩ => "saturday"
  | _ => "sunday"

/-- The lowercased weekday names `now.strftime("%A").lower()` yields under
the Russian locale ru_RU (index 0 = Monday), modelling the CPython locale
rendering under a non-English runtime locale. -/
def weekdayNameLowerRu : Fin 7 → String
  | ⟨0, _⟩ => "понедельник"
  | ⟨1, _⟩ => "вторник"
  | ⟨2, _⟩ => "среда"
  | ⟨3, _⟩ => "четверг"
  | ⟨4, _⟩ => "пятница"
  | ⟨5, _⟩ => "суббота"
  | _ => "воскресенье"

/-- The final message text of `job` line 370, built around `last_error`. -/
def exhaustedMsg (lastError : String) : String :=
  "❗️❗️❗️ <b>ВСЕ 10 ПОПЫТОК ИСЧЕРПАНЫ. Замок не открыт.</b>\nПоследняя ошибка: "
    ++ lastError ++ "\nТребуется ручное вмешательство."

/-- C7: for every config with `schedule_enabled = false`, the scheduling
decision of `job` skips for every weekday name, current time and time
shift, so the whole run makes no actuator call. -/
theorem C7_schedule_disabled_skips (cfg : Config) (wd t : String)
    (shift : Option String) (tokenOk lockSet : Bool)
    (result : Nat → ApiResult) (tg : Notice → Transport) (emailT : Transport)
    (h : cfg.schedule_enabled = false) :
    jobDecision cfg wd t shift = .skips ∧
    callsOf (jobEvents cfg wd t shift tokenOk lockSet result tg emailT)
      = [] := by
  have hd : jobDecision cfg wd t shift = .skips := by
    simp [jobDecision, h]
  exact ⟨hd, by simp [jobEvents, hd, callsOf]⟩

/-- Closed instance of C7 at a concrete config, weekday and time. -/
theorem C7_schedule_disabled_skips_witness :
    jobDecision ⟨false, [("Пн", some "09:00")], []⟩ "monday" "09:00" none
      = .skips :=
  (C7_schedule_disabled_skips ⟨false, [("Пн", some "09:00")], []⟩
    "monday" "09:00" none true true failResult okTG (.resp 200) rfl).1

/-- C9: writing a schedule config and loading it back reproduces exactly
the same dict items: the same keys in the same order, the same day labels,
the same time strings and the same break lists in order. -/
theorem C9_config_roundtrip (c : ScheduleConfig) :
    load_config (some (save_config c)) = configItems c := by
  simp [load_config, save_config, mergeConfig, configItems, defaultConfigItems,
    dictSet, isNull, List.foldl, encodeOpenTimes, encodeBreaks]

/-- C6: with the schedule enabled, an open time set for the day, no time
shift, and the current time outside all breaks, the decision fires exactly
when the current `HH:MM` string equals the configured open time. -/
theorem C6_exact_minute_match (cfg : Config) (wd d t ot : String)
    (hen : cfg.schedule_enabled = true)
    (hd : day_mapping wd = some d)
    (hot : List.lookup d cfg.open_times = some (some ot))
    (hne : ot ≠ "")
    (hbr : breakCheck t ((List.lookup d cfg.breaks).getD []) = .ok false) :
    jobDecision cfg wd t none = .fires ↔ t = ot := by
  have : jobDecision cfg wd t none = if t = ot then .fires else .skips := by
    simp [jobDecision, hen, hd, hot, hne, hbr]
  rw [this]
  by_cases h : t = ot <;> simp [h]

/-- Closed instance of C6: with Monday open at 09:00 and no breaks, the
decision fires at 09:00 and does not fire at 08:59 or 09:01. -/
theorem C6_exact_minute_match_witness :
    jobDecision cfg09 "monday" "09:00" none = .fires ∧
    jobDecision cfg09 "monday" "08:59" none ≠ .fires ∧
    jobDecision cfg09 "monday" "09:01" none ≠ .fires := by
  refine ⟨?_, fun h => ?_, fun h => ?_⟩
  · exact (C6_exact_minute_match cfg09 "monday" "Пн" "09:00" "09:00"
      rfl (by decide) (by decide) (by decide) (by rfl)).mpr rfl
  · exact absurd ((C6_exact_minute_match cfg09 "monday" "Пн" "08:59" "09:00"
      rfl (by decide) (by decide) (by decide) (by rfl)).mp h) (by decide)
  · exact absurd ((C6_exact_minute_match cfg09 "monday" "Пн" "09:01" "09:00"
      rfl (by decide) (by decide) (by decide) (by rfl)).mp h) (by decide)

/-- If every break entry of the list splits on the dash into two parts and
some entry contains the current time per the closed-interval string test,
the break loop answers "in break". -/
theorem breakCheck_mem_true (t : String) (bs : List String) (b s e : String)
    (hwf : ∀ b' ∈ bs, ∃ s' e', pySplitDash b' = [s', e'])
    (hb : b ∈ bs) (hsplit : pySplitDash b = [s, e])
    (hin : (pyStrLe s t && pyStrLe t e) = true) :
    breakCheck t bs = .ok true := by
  induction bs with
  | nil => cases hb
  | cons hd tl ih =>
    obtain ⟨s', e', hsp'⟩ := hwf hd (List.mem_cons_self hd tl)
    rcases List.mem_cons.mp hb with hbeq | hbtl
    · subst hbeq
      rw [hsplit] at hsp'
      obtain ⟨hs, he⟩ : s = s' ∧ e = e' := by
        simpa using hsp'
      subst hs; subst he
      simp [breakCheck, hsplit, hin]
    · by_cases hc : (pyStrLe s' t && pyStrLe t e') = true
      · simp [breakCheck, hsp', hc]
      · have := ih (fun b' hb' => hwf b' (List.mem_cons_of_mem hd hb')) hbtl
        simp [breakCheck, hsp', hc, this]

/-- C2 as the code has it (the amended claim): break intervals are closed
`[start, end]` under the lexicographic `HH:MM` string test, so a current
time equal to a break start, and equally one equal to a break end, is in
break and the decision skips even when that time equals the open time. -/
theorem C2_breaks_closed_interval (cfg : Config) (wd d t ot : String)
    (bs : List String) (b s e : String)
    (hen : cfg.schedule_enabled = true)
    (hd : day_mapping wd = some d)
    (hot : List.lookup d cfg.open_times = some (some ot))
    (hne : ot ≠ "")
    (hbs : List.lookup d cfg.breaks = some bs)
    (hwf : ∀ b' ∈ bs, ∃ s' e', pySplitDash b' = [s', e'])
    (hb : b ∈ bs) (hsplit : pySplitDash b = [s, e])
    (hin : (pyStrLe s t && pyStrLe t e) = true) :
    jobDecision cfg wd t none = .skips := by
  have hbr : breakCheck t ((List.lookup d cfg.breaks).getD []) = .ok true := by
    rw [hbs]
    exact breakCheck_mem_true t bs b s e hwf hb hsplit hin
  simp [jobDecision, hen, hd, hot, hne, hbr]

/-- Closed instance of the amended C2 at the break start boundary: with a
13:00-14:00 Monday break, 13:00 exact is in break and the decision skips. -/
theorem C2_breaks_closed_interval_witness :
    jobDecision cfgLunch "monday" "13:00" none = .skips :=
  C2_breaks_closed_interval cfgLunch "monday" "Пн" "13:00" "14:00"
    ["13:00-14:00"] "13:00-14:00" "13:00" "14:00"
    rfl (by decide) (by decide) (by decide) (by decide)
    (by intro b' hb'
        simp only [List.mem_singleton] at hb'
        exact ⟨"13:00", "14:00", by rw [hb']; decide⟩)
    (by decide) (by decide) (by decide)

/-- Counterexample to C2 as stated: with Monday open at 14:00 and a break
`13:00-14:00`, the current time 14:00 equals the break end, yet the
decision skips (the code treats the end as still in break), while the
claim says the action fires there. -/
theorem C2_break_end_fires_counterexample :
    jobDecision cfgLunch "monday" "14:00" none = .skips := by decide

/-- C4: the code at the failing input.  A break entry without a dash makes
the tuple unpacking in the break loop of `job` raise ValueError instead of
treating the malformed entry as no match, while a malformed (unknown) day
label alone does not raise and yields no match. -/
theorem C4_malformed_break_raises :
    jobDecision cfgBadBreak "monday" "09:00" none
        = .raises "ValueError: not enough values to unpack" ∧
    jobDecision cfg09 "someday" "09:00" none = .skips := by decide

/-- C5: the code at the failing input.  The day label is derived through
the locale-rendered weekday name: under an English locale Monday maps to
the label used by the config and the decision fires, while under the
Russian locale the very same instant maps to no label and the decision
silently skips — the two runs differ, so the derivation is
locale-dependent. -/
theorem C5_locale_dependent_day :
    jobDecision cfg09 (weekdayNameLowerEn 0) "09:00" none = .fires ∧
    jobDecision cfg09 (weekdayNameLowerRu 0) "09:00" none = .skips ∧
    day_mapping (weekdayNameLowerEn 0) = some "Пн" ∧
    day_mapping (weekdayNameLowerRu 0) = none := by decide

/-- When every attempt fails, the 15-minute tail loop runs all five
iterations: each sleeps 900 s, calls the next attempt and sends its failure
notice; it ends unsuccessful after attempt 10 with the last error of
attempt 10. -/
theorem retry15_all_fail (result : Nat → ApiResult) (tg : Notice → Transport)
    (e : String) (h : ∀ k, (result k).errcode ≠ 0) :
    retry15 result tg 5 6 e =
      ⟨Event.wait 900 :: failEvents tg 6 (result 6).errmsg ++
        (Event.wait 900 :: failEvents tg 7 (result 7).errmsg ++
          (Event.wait 900 :: failEvents tg 8 (result 8).errmsg ++
            (Event.wait 900 :: failEvents tg 9 (result 9).errmsg ++
              (Event.wait 900 :: failEvents tg 10 (result 10).errmsg ++ [])))),
        false, 10, (result 10).errmsg⟩ := by
  simp [retry15, h 6, h 7, h 8, h 9, h 10]

/-- C1 as amended: when every actuator attempt fails, the retry routine of
`job` makes exactly the attempts 1 through 10 with the sleeps
`[30, 60, 300, 600, 900, 900, 900, 900, 900]` between them — 5490 s in
total, not the 5890 s the claim computes — sends exactly 10 per-attempt
failure notifications, exactly one escalation email placed right after the
5th failed attempt, and exactly one final exhaustion notification, and ends
unsuccessful with 10 attempts made. -/
theorem C1_all_fail_trace (result : Nat → ApiResult)
    (tg : Notice → Transport) (emailT : Transport)
    (h : ∀ k, (result k).errcode ≠ 0) :
    (jobRetry result tg emailT).success = false ∧
    (jobRetry result tg emailT).attempts = 10 ∧
    callsOf (jobRetry result tg emailT).events
      = [1, 2, 3, 4, 5, 6, 7, 8, 9, 10] ∧
    waitsOf (jobRetry result tg emailT).events
      = [30, 60, 300, 600, 900, 900, 900, 900, 900] ∧
    (waitsOf (jobRetry result tg emailT).events).sum = 5490 ∧
    ((jobRetry result tg emailT).events.filter isFailNote).length = 10 ∧
    (jobRetry result tg emailT).events.filter isEmailEv
      = [Event.email (result 5).errmsg emailT] ∧
    callsOf ((jobRetry result tg emailT).events.takeWhile
        (fun e => !isEmailEv e)) = [1, 2, 3, 4, 5] ∧
    ((jobRetry result tg emailT).events.filter isExhaustedNote).length
      = 1 := by
  have hr := retry15_all_fail result tg (result 5).errmsg h
  refine ⟨?_, ?_, ?_, ?_, ?_, ?_, ?_, ?_, ?_⟩ <;>
    simp [jobRetry, h 1, h 2, h 3, h 4, h 5, hr, callsOf, waitsOf,
      succEvents, failEvents, isFailNote, isEmailEv, isExhaustedNote,
      List.takeWhile]

/-- The always-failing result fails on every attempt. -/
theorem failResult_errcode (k : Nat) : (failResult k).errcode ≠ 0 :=
  one_ne_zero

/-- Counterexample to C1 as stated: in the all-fail run the sleeps are
exactly the claimed list, but their total is 5490 seconds, not the 5890
the claim asserts. -/
theorem C1_total_wait_counterexample :
    waitsOf (jobRetry failResult okTG (.resp 200)).events
      = [30, 60, 300, 600, 900, 900, 900, 900, 900] ∧
    (waitsOf (jobRetry failResult okTG (.resp 200)).events).sum = 5490 ∧
    (waitsOf (jobRetry failResult okTG (.resp 200)).events).sum ≠ 5890 := by
  decide

/-- Closed instance of the amended C1 at an always-failing result. -/
theorem C1_all_fail_trace_witness :
    (jobRetry failResult okTG (.resp 200)).success = false ∧
    (jobRetry failResult okTG (.resp 200)).attempts = 10 :=
  ⟨(C1_all_fail_trace failResult okTG (.resp 200) failResult_errcode).1,
   (C1_all_fail_trace failResult okTG (.resp 200) failResult_errcode).2.1⟩

/-- Counterexample to C3 as stated: in the concrete all-fail run the final
notification — the last event of the trace — is a Telegram (chat) message
only, and no email event exists at or after the 10th attempt; the single
email of the run was sent back at the 5th-failure milestone, so the final
critical notification does not go through the email-class channel. -/
theorem C3_exhaustion_chat_only_counterexample :
    (jobRetry failResult okTG (.resp 200)).events.getLast?
      = some (Event.telegram (.exhausted "E") (.resp 200)) ∧
    ((jobRetry failResult okTG (.resp 200)).events.dropWhile
        (fun e => e != Event.call 10)).filter isEmailEv = [] := by decide

/-- C3 as amended: when all attempts are exhausted, the final critical
notification goes through the chat channel only: the trace ends with a
Telegram notice carrying `last_error`, every email of the run lies strictly
before it and there is exactly one — the 5th-failure escalation email; the
rendered final text contains the last error and explicitly demands manual
intervention. -/
theorem C3_exhaustion_notification (result : Nat → ApiResult)
    (tg : Notice → Transport) (emailT : Transport)
    (h : ∀ k, (result k).errcode ≠ 0) :
    (∃ pre,
      (jobRetry result tg emailT).events =
        pre ++ [Event.telegram (.exhausted (result 10).errmsg)
          (tg (.exhausted (result 10).errmsg))] ∧
      pre.filter isEmailEv = [Event.email (result 5).errmsg emailT]) ∧
    ((result 10).errmsg.data <:+:
      (exhaustedMsg (result 10).errmsg).data) ∧
    ("Требуется ручное вмешательство.".data <:+
      (exhaustedMsg (result 10).errmsg).data) := by
  have hr := retry15_all_fail result tg (result 5).errmsg h
  refine ⟨⟨failEvents tg 1 (result 1).errmsg ++ [Event.wait 30] ++
      failEvents tg 2 (result 2).errmsg ++ [Event.wait 60] ++
      failEvents tg 3 (result 3).errmsg ++
      [Event.telegram .threeFast (tg .threeFast), Event.wait 300] ++
      failEvents tg 4 (result 4).errmsg ++ [Event.wait 600] ++
      failEvents tg 5 (result 5).errmsg ++
      [Event.telegram .fiveCritical (tg .fiveCritical),
        Event.email (result 5).errmsg emailT] ++
      (Event.wait 900 :: failEvents tg 6 (result 6).errmsg) ++
      (Event.wait 900 :: failEvents tg 7 (result 7).errmsg) ++
      (Event.wait 900 :: failEvents tg 8 (result 8).errmsg) ++
      (Event.wait 900 :: failEvents tg 9 (result 9).errmsg) ++
      (Event.wait 900 :: failEvents tg 10 (result 10).errmsg),
      ?_, ?_⟩, ?_, ?_⟩
  · simp [jobRetry, h 1, h 2, h 3, h 4, h 5, hr, succEvents, failEvents]
  · simp [failEvents, isEmailEv]
  · exact ⟨("❗️❗️❗️ <b>ВСЕ 10 ПОПЫТОК ИСЧЕРПАНЫ. Замок не открыт.</b>\nПоследняя ошибка: " : String).data,
      ("\nТребуется ручное вмешательство." : String).data,
      by simp [exhaustedMsg, String.data_append]⟩
  · exact ⟨("❗️❗️❗️ <b>ВСЕ 10 ПОПЫТОК ИСЧЕРПАНЫ. Замок не открыт.</b>\nПоследняя ошибка: " : String).data
        ++ (result 10).errmsg.data ++ [Char.ofNat 10],
      by simp [exhaustedMsg, String.data_append]⟩

/-- Closed instance of the amended C3 at an always-failing result. -/
theorem C3_exhaustion_notification_witness :
    ("Требуется ручное вмешательство.".data <:+
      (exhaustedMsg (failResult 10).errmsg).data) :=
  (C3_exhaustion_notification failResult okTG (.resp 200)
    failResult_errcode).2.2

/-- Stripped of delivery outcomes, the 15-minute tail loop runs the same
for any two notification transports. -/
theorem retry15_strip (result : Nat → ApiResult)
    (tg tg' : Notice → Transport) :
    ∀ i k e, (retry15 result tg i k e).events.map stripEvent
        = (retry15 result tg' i k e).events.map stripEvent ∧
      (retry15 result tg i k e).success
        = (retry15 result tg' i k e).success ∧
      (retry15 result tg i k e).attempts
        = (retry15 result tg' i k e).attempts ∧
      (retry15 result tg i k e).lastError
        = (retry15 result tg' i k e).lastError := by
  intro i
  induction i with
  | zero => intro k e; simp [retry15]
  | succ i ih =>
    intro k e
    by_cases hc : (result k).errcode = 0
    · simp [retry15, hc, succEvents, stripEvent]
    · obtain ⟨e1, e2, e3, e4⟩ := ih (k + 1) (result k).errmsg
      refine ⟨?_, ?_, ?_, ?_⟩ <;>
        simp [retry15, hc, failEvents, stripEvent, e1, e2, e3, e4]

/-- C8: a failure of any notification sink never escapes the sink call
(`send_telegram_message` and `send_email_notification` are total for every
transport outcome) and never changes the retry state machine: stripped of
delivery outcomes, the runs of the retry routine agree for any two choices
of Telegram and email transports, failing or not. -/
theorem C8_sink_failures_invisible (result : Nat → ApiResult)
    (tg tg' : Notice → Transport) (em em' : Transport) :
    stripRun (jobRetry result tg em) = stripRun (jobRetry result tg' em') := by
  obtain ⟨e1, e2, e3, e4⟩ := retry15_strip result tg tg' 5 6 (result 5).errmsg
  by_cases h1 : (result 1).errcode = 0
  · simp [jobRetry, h1, stripRun, succEvents, stripEvent]
  by_cases h2 : (result 2).errcode = 0
  · simp [jobRetry, h1, h2, stripRun, succEvents, failEvents, stripEvent]
  by_cases h3 : (result 3).errcode = 0
  · simp [jobRetry, h1, h2, h3, stripRun, succEvents, failEvents, stripEvent]
  by_cases h4 : (result 4).errcode = 0
  · simp [jobRetry, h1, h2, h3, h4, stripRun, succEvents, failEvents,
      stripEvent]
  by_cases h5 : (result 5).errcode = 0
  · simp [jobRetry, h1, h2, h3, h4, h5, stripRun, succEvents, failEvents,
      stripEvent]
  by_cases hs : (retry15 result tg 5 6 (result 5).errmsg).success = true
  · have hs' : (retry15 result tg' 5 6 (result 5).errmsg).success = true := by
      rw [← e2]; exact hs
    simp [jobRetry, h1, h2, h3, h4, h5, hs, hs', stripRun, succEvents,
      failEvents, stripEvent, e1, e3]
  · have hs' : ¬(retry15 result tg' 5 6 (result 5).errmsg).success = true := by
      rw [← e2]; exact hs
    simp [jobRetry, h1, h2, h3, h4, h5, hs, hs', stripRun, succEvents,
      failEvents, stripEvent, e1, e3, e4]

/-- C10: the unlock client makes up to 3 internal attempts with sleeps of
30 s and 60 s before the 2nd and 3rd attempts (never more than 3 calls and
90 s of waiting), and — never raising, since per-attempt exceptions are
swallowed — returns the errcode 0 dict with `success = true` and an
attempt number in `[1, 3]` exactly when some attempt's response carries
`errcode == 0`; otherwise it returns the errcode `-1` failure dict with
`success = false` and `attempt = 3`. -/
theorem C10_unlock_retry_contract (outcome : Nat → HttpOutcome) :
    (((unlock_lock outcome).result.errcode = 0 ∧
        (unlock_lock outcome).result.success = true ∧
        1 ≤ (unlock_lock outcome).result.attempt ∧
        (unlock_lock outcome).result.attempt ≤ 3)
      ↔ (isOkOutcome (outcome 0) || isOkOutcome (outcome 1)
          || isOkOutcome (outcome 2)) = true) ∧
    ((isOkOutcome (outcome 0) || isOkOutcome (outcome 1)
        || isOkOutcome (outcome 2)) = false →
      unlock_lock outcome
        = ⟨[30, 60], 3,
            ⟨-1, "Не удалось открыть замок после 3 попыток", false, 3⟩⟩) ∧
    (unlock_lock outcome).calls ≤ 3 ∧
    (unlock_lock outcome).waits
      = (unlockIntervals.drop 1).take ((unlock_lock outcome).calls - 1) ∧
    (unlock_lock outcome).waits.sum ≤ 90 := by
  by_cases h0 : isOkOutcome (outcome 0) = true
  · simp [unlock_lock, unlockLoop, h0, unlockIntervals]
  by_cases h1 : isOkOutcome (outcome 1) = true
  · simp [unlock_lock, unlockLoop, h0, h1, unlockIntervals]
  by_cases h2 : isOkOutcome (outcome 2) = true
  · simp [unlock_lock, unlockLoop, h0, h1, h2, unlockIntervals]
  · simp [unlock_lock, unlockLoop, h0, h1, h2, unlockIntervals]
